import Mathlib

/-!
# Paged address translation simulator (`simulador_pt1.c`)

Shallow embedding of the C program.  C `int` values are mathematical integers
(`Int`); every arithmetic result the program can compute from values in the
`int` range either stays in that range or feeds an array access that is out of
bounds, which the model reports as `none`.  A C array of fixed size is a total
function on indices together with its size constant; an access outside
`[0, size)` is undefined behaviour in C and is `none` here.  `unsigned char`
cells hold naturals, and a store keeps the value modulo 256.  The text printed
by `printf` is represented by the values that are printed.
-/

namespace Simulador

/-! ## System parameters -/

/-- Bytes per page and per frame (`#define TAMANHO_PAGINA 1024`). -/
def TAMANHO_PAGINA : Nat := 1024

/-- Number of frames of physical memory (`#define QUADROS_RAM 16`). -/
def QUADROS_RAM : Nat := 16

/-- Size of the physical memory in bytes (`QUADROS_RAM * TAMANHO_PAGINA`). -/
def TAMANHO_RAM : Nat := QUADROS_RAM * TAMANHO_PAGINA

/-- Pages per process (`#define PAGINAS_PROCESSO 4`). -/
def PAGINAS_PROCESSO : Nat := 4

/-- Number of processes (`#define PROCESSOS_COUNT 3`). -/
def PROCESSOS_COUNT : Nat := 3

/-- Mask of the ten offset bits (`#define MASCARA_OFFSET 0x03FF`). -/
def MASCARA_OFFSET : Int := 0x03FF

/-! ## Data structures and global state -/

/-- Task control block: `typedef struct { int pid; int ptbr_offset; } TCB;`. -/
structure TCB where
  pid : Int
  ptbr_offset : Int
  deriving DecidableEq, Repr

/-- The three global arrays `RAM`, `processos` and `dono_frame`. -/
structure Sistema where
  RAM : Nat → Nat
  processos : Nat → TCB
  dono_frame : Nat → Int

/-- Array store `arr[i] = v`. -/
def escrever {α : Type} (arr : Nat → α) (i : Nat) (v : α) : Nat → α :=
  fun j => if j = i then v else arr j

/-- Store into an `unsigned char` cell: the value is kept modulo 256. -/
def escrever_byte (arr : Nat → Nat) (i : Nat) (v : Nat) : Nat → Nat :=
  escrever arr i (v % 256)

/-- Array load `arr[i]` for an `int` index into an array of `tamanho` cells;
an index outside `[0, tamanho)` has no defined result. -/
def ler {α : Type} (arr : Nat → α) (tamanho : Nat) (i : Int) : Option α :=
  if 0 ≤ i ∧ i < (tamanho : Int) then some (arr i.toNat) else none

/-- Bitwise and of two 32-bit `int` values (`a & b`): the and of the two's
complement bit patterns, read back as a signed value. -/
def c_and (a b : Int) : Int :=
  let r : Int := ((Nat.land (a % 4294967296).toNat (b % 4294967296).toNat : Nat) : Int)
  if r < 2147483648 then r else r - 4294967296

/-- Right shift of an `int` (`a >> k`); arithmetic on negative values. -/
def c_shr (a : Int) (k : Nat) : Int := a >>> k

/-! ## `inicializar_sistema` -/

/-- `void inicializar_sistema()`: clears `RAM` and `dono_frame`, sets the three
TCBs, writes the three page tables into frame 0 and tags the frame owners. -/
def inicializar_sistema (s : Sistema) : Sistema :=
  -- memset(RAM, 0, sizeof(RAM)); memset(dono_frame, 0, sizeof(dono_frame));
  let RAM : Nat → Nat := fun _ => 0
  let dono_frame : Nat → Int := fun _ => 0
  -- 1. TCBs
  let processos := escrever s.processos 0 { pid := 1, ptbr_offset := 0x0000 }
  let processos := escrever processos 1 { pid := 2, ptbr_offset := 0x0100 }
  let processos := escrever processos 2 { pid := 3, ptbr_offset := 0x0200 }
  -- 2. page tables in frame 0
  let RAM := escrever_byte RAM (0x0000 + 0) 5
  let RAM := escrever_byte RAM (0x0000 + 1) 8
  let RAM := escrever_byte RAM (0x0000 + 2) 9
  let RAM := escrever_byte RAM (0x0000 + 3) 11
  let RAM := escrever_byte RAM (0x0100 + 0) 1
  let RAM := escrever_byte RAM (0x0100 + 1) 2
  let RAM := escrever_byte RAM (0x0100 + 2) 12
  let RAM := escrever_byte RAM (0x0100 + 3) 13
  let RAM := escrever_byte RAM (0x0200 + 0) 3
  let RAM := escrever_byte RAM (0x0200 + 1) 4
  let RAM := escrever_byte RAM (0x0200 + 2) 14
  let RAM := escrever_byte RAM (0x0200 + 3) 15
  -- 3. frame owners
  let dono_frame := escrever dono_frame 0 (-1)
  let dono_frame := escrever dono_frame 5 1
  let dono_frame := escrever dono_frame 8 1
  let dono_frame := escrever dono_frame 9 1
  let dono_frame := escrever dono_frame 11 1
  let dono_frame := escrever dono_frame 1 2
  let dono_frame := escrever dono_frame 2 2
  let dono_frame := escrever dono_frame 12 2
  let dono_frame := escrever dono_frame 13 2
  let dono_frame := escrever dono_frame 3 3
  let dono_frame := escrever dono_frame 4 3
  let dono_frame := escrever dono_frame 14 3
  let dono_frame := escrever dono_frame 15 3
  { RAM := RAM, processos := processos, dono_frame := dono_frame }

/-! ## `exibir_ram` -/

/-- One printed line of `exibir_ram`: frame index, first byte address, owner
label and whether the access mark is printed. -/
structure LinhaRAM where
  frame : Nat
  end_inicial : Nat
  rotulo : String
  acesso : Bool
  deriving DecidableEq, Repr

/-- The `switch (dono_frame[i])` of `exibir_ram`. -/
def rotulo_dono (dono : Int) : String :=
  if dono = -1 then "[ TABELA PAGINAS ]"
  else if dono = 1 then "[      P1      ]"
  else if dono = 2 then "[      P2      ]"
  else if dono = 3 then "[      P3      ]"
  else "[     LIVRE      ]"

/-- `void exibir_ram(int frame_acessado)`: one line per frame `0 .. 15`; no
global is written. -/
def exibir_ram (s : Sistema) (frame_acessado : Int) : Sistema × List LinhaRAM :=
  (s, (List.range QUADROS_RAM).map fun i =>
    { frame := i
      end_inicial := i * TAMANHO_PAGINA
      rotulo := rotulo_dono (s.dono_frame i)
      acesso := decide ((i : Int) = frame_acessado) })

/-! ## `mmu_traduzir_endereco` -/

/-- The values computed and printed by one translation. -/
structure Traducao where
  num_pagina : Int
  offset : Int
  endereco_entrada_tabela : Int
  num_frame : Int
  endereco_fisico : Int
  painel_tabela : List LinhaRAM
  painel_acesso : List LinhaRAM
  deriving DecidableEq, Repr

/-- `void mmu_traduzir_endereco(TCB processo_ativo, int endereco_logico)`.
The result is `none` exactly when the load `RAM[endereco_entrada_tabela]` is
out of the bounds of `RAM`. -/
def mmu_traduzir_endereco (s : Sistema) (processo_ativo : TCB) (endereco_logico : Int) :
    Sistema × Option Traducao :=
  let offset := c_and endereco_logico MASCARA_OFFSET
  let num_pagina := c_shr endereco_logico 10
  let r0 := exibir_ram s 0
  let s := r0.1
  let ptbr := processo_ativo.ptbr_offset
  let endereco_entrada_tabela := ptbr + num_pagina
  match ler s.RAM TAMANHO_RAM endereco_entrada_tabela with
  | none => (s, none)
  | some byte =>
    let num_frame : Int := (byte : Int)
    let endereco_fisico := (num_frame * (TAMANHO_PAGINA : Int)) + offset
    let r1 := exibir_ram s num_frame
    (r1.1, some
      { num_pagina := num_pagina
        offset := offset
        endereco_entrada_tabela := endereco_entrada_tabela
        num_frame := num_frame
        endereco_fisico := endereco_fisico
        painel_tabela := r0.2
        painel_acesso := r1.2 })

/-! ## `main` -/

/-- Local variables of `main` that persist across iterations of the menu loop. -/
structure Shell where
  pid_ativo : Int
  processo_ativo : TCB
  enderecos_logicos : Nat → Int

/-- What one iteration of the menu loop printed. -/
inductive Saida where
  | processo_invalido (mantido : Int)
  | processo_atualizado (pid : Int)
  | variavel_invalida
  | traducao (t : Option Traducao)
  | ram (linhas : List LinhaRAM)
  | terminado
  | opcao_invalida
  deriving DecidableEq, Repr

/-- The part of `main` before the loop: initialisation, `pid_ativo = 1`,
`processo_ativo = processos[0]` and the four fixed logical addresses. -/
def main_inicio (s : Sistema) : Sistema × Shell :=
  let s := inicializar_sistema s
  let pid_ativo : Int := 1
  let processo_ativo := s.processos (pid_ativo - 1).toNat
  let e : Nat → Int := fun _ => 0
  let e := escrever e 0 (0 * 1024 + 100)
  let e := escrever e 1 (1 * 1024 + 200)
  let e := escrever e 2 (2 * 1024 + 50)
  let e := escrever e 3 (3 * 1024 + 300)
  (s, { pid_ativo := pid_ativo, processo_ativo := processo_ativo, enderecos_logicos := e })

/-- One iteration of the `while (1)` loop of `main` on a numeric menu choice
and the number read next (used by cases 1 and 2). -/
def main_passo (s : Sistema) (sh : Shell) (escolha_menu : Int) (entrada : Int) :
    Sistema × Shell × Saida :=
  if escolha_menu = 1 then
    let novo_pid := entrada
    if novo_pid < 1 ∨ novo_pid > 3 then
      (s, sh, Saida.processo_invalido sh.pid_ativo)
    else
      let pid_ativo := novo_pid
      let processo_ativo := s.processos (pid_ativo - 1).toNat
      (s, { sh with pid_ativo := pid_ativo, processo_ativo := processo_ativo },
        Saida.processo_atualizado pid_ativo)
  else if escolha_menu = 2 then
    let escolha_var := entrada
    if escolha_var < 0 ∨ escolha_var > 3 then
      (s, sh, Saida.variavel_invalida)
    else
      let end_logico_selecionado := sh.enderecos_logicos escolha_var.toNat
      let r := mmu_traduzir_endereco s sh.processo_ativo end_logico_selecionado
      (r.1, sh, Saida.traducao r.2)
  else if escolha_menu = 3 then
    let r := exibir_ram s (-1)
    (r.1, sh, Saida.ram r.2)
  else if escolha_menu = 0 then
    (s, sh, Saida.terminado)
  else
    (s, sh, Saida.opcao_invalida)

/-- The `while (1)` loop of `main` on the sequence of numbers read: each item is
a menu choice with the number read after it.  The loop ends at choice 0
(`return 0`) or when the input is exhausted; the result carries what each
iteration printed. -/
def main_laco (s : Sistema) (sh : Shell) : List (Int × Int) → Sistema × Shell × List Saida
  | [] => (s, sh, [])
  | (escolha_menu, entrada) :: resto =>
    let r := main_passo s sh escolha_menu entrada
    if escolha_menu = 0 then
      (r.1, r.2.1, [r.2.2])
    else
      let r2 := main_laco r.1 r.2.1 resto
      (r2.1, r2.2.1, r.2.2 :: r2.2.2)

/-- `int main()`: initialisation followed by the menu loop. -/
def main (s0 : Sistema) (entradas : List (Int × Int)) : Sistema × Shell × List Saida :=
  let r := main_inicio s0
  main_laco r.1 r.2 entradas

/-- What holds of the globals and of the locals of `main` at the head of every
iteration: the globals are those left by `inicializar_sistema`, the four logical
addresses are the ones assigned before the loop, and the active descriptor is
one of `processos[0 .. 2]`, with `pid_ativo` one more than its index. -/
def main_invariante (s0 s : Sistema) (sh : Shell) : Prop :=
  s = inicializar_sistema s0 ∧
  sh.enderecos_logicos = (main_inicio s0).2.enderecos_logicos ∧
  ∃ k : Nat, k < 3 ∧ sh.processo_ativo = (inicializar_sistema s0).processos k ∧
    sh.pid_ativo = (k : Int) + 1

/-- Any state of the globals before `main` runs (C zero-initialises them). -/
def sistema_zero : Sistema :=
  { RAM := fun _ => 0, processos := fun _ => { pid := 0, ptbr_offset := 0 }, dono_frame := fun _ => 0 }

/-- The initialised system with the first page-table entry of P1 overwritten
by the byte 200 (a frame number that does not exist). -/
def sistema_entrada_200 : Sistema :=
  { inicializar_sistema sistema_zero with
    RAM := escrever_byte (inicializar_sistema sistema_zero).RAM 0 200 }

/-- A descriptor whose page table would start at the first byte of frame 1. -/
def tcb_base_1024 : TCB := { pid := 1, ptbr_offset := 1024 }

/-- The five numbers of a translation, without the two memory panels. -/
def Traducao.valores (t : Traducao) : Int × Int × Int × Int × Int :=
  (t.num_pagina, t.offset, t.endereco_entrada_tabela, t.num_frame, t.endereco_fisico)

/-! ## Arithmetic of the address decomposition -/

theorem c_shr_dez (a : Int) : c_shr a 10 = a / 1024 := by
  unfold c_shr
  rw [Int.shiftRight_eq_div_pow]
  norm_num

theorem c_and_mascara (a : Int) : c_and a MASCARA_OFFSET = a % 1024 := by
  have hm : (MASCARA_OFFSET % 4294967296).toNat = 2 ^ 10 - 1 := by decide
  have hx : (((a % 4294967296).toNat : Nat) : Int) = a % 4294967296 :=
    Int.toNat_of_nonneg (Int.emod_nonneg a (by decide))
  have hl : Nat.land (a % 4294967296).toNat (2 ^ 10 - 1) = (a % 4294967296).toNat % 2 ^ 10 :=
    Nat.and_pow_two_sub_one_eq_mod _ 10
  have hc : (((a % 4294967296).toNat % 2 ^ 10 : Nat) : Int) = a % 1024 := by
    push_cast
    rw [hx]
    omega
  unfold c_and
  simp only [hm, hl, hc]
  rw [if_pos (by omega)]

/-! ## Unfolding of one translation -/

theorem exibir_ram_estado (s : Sistema) (f : Int) : (exibir_ram s f).1 = s := rfl

theorem mmu_definido (s : Sistema) (p : TCB) (a : Int)
    (h0 : 0 ≤ p.ptbr_offset + a / 1024) (h1 : p.ptbr_offset + a / 1024 < 16384) :
    mmu_traduzir_endereco s p a = (s, some
      { num_pagina := a / 1024
        offset := a % 1024
        endereco_entrada_tabela := p.ptbr_offset + a / 1024
        num_frame := (s.RAM (p.ptbr_offset + a / 1024).toNat : Int)
        endereco_fisico := (s.RAM (p.ptbr_offset + a / 1024).toNat : Int) * 1024 + a % 1024
        painel_tabela := (exibir_ram s 0).2
        painel_acesso := (exibir_ram s (s.RAM (p.ptbr_offset + a / 1024).toNat : Int)).2 }) := by
  have hl : ler s.RAM TAMANHO_RAM (p.ptbr_offset + a / 1024)
      = some (s.RAM (p.ptbr_offset + a / 1024).toNat) := by
    unfold ler
    rw [if_pos]
    refine ⟨h0, ?_⟩
    have : ((TAMANHO_RAM : Nat) : Int) = 16384 := by decide
    omega
  unfold mmu_traduzir_endereco
  simp only [exibir_ram_estado, c_shr_dez, c_and_mascara, hl]
  rfl

theorem mmu_indefinido (s : Sistema) (p : TCB) (a : Int)
    (h : p.ptbr_offset + a / 1024 < 0 ∨ 16384 ≤ p.ptbr_offset + a / 1024) :
    mmu_traduzir_endereco s p a = (s, none) := by
  have hl : ler s.RAM TAMANHO_RAM (p.ptbr_offset + a / 1024) = none := by
    unfold ler
    rw [if_neg]
    have : ((TAMANHO_RAM : Nat) : Int) = 16384 := by decide
    omega
  unfold mmu_traduzir_endereco
  simp only [exibir_ram_estado, c_shr_dez, hl]

theorem mmu_estado (s : Sistema) (p : TCB) (a : Int) : (mmu_traduzir_endereco s p a).1 = s := by
  by_cases h : 0 ≤ p.ptbr_offset + a / 1024 ∧ p.ptbr_offset + a / 1024 < 16384
  · rw [mmu_definido s p a h.1 h.2]
  · rw [mmu_indefinido s p a (by omega)]

theorem mmu_decomposicao (s : Sistema) (p : TCB) (a : Int) (t : Traducao)
    (h : (mmu_traduzir_endereco s p a).2 = some t) :
    t.num_pagina = a / 1024 ∧ t.offset = a % 1024 := by
  by_cases hb : 0 ≤ p.ptbr_offset + a / 1024 ∧ p.ptbr_offset + a / 1024 < 16384
  · rw [mmu_definido s p a hb.1 hb.2] at h
    have ht := Option.some.inj h
    subst ht
    exact ⟨rfl, rfl⟩
  · rw [mmu_indefinido s p a (by omega)] at h
    exact absurd h (by simp)

theorem exibir_ram_rotulos (s : Sistema) (f : Int) :
    (exibir_ram s f).2.map LinhaRAM.rotulo
      = (List.range QUADROS_RAM).map (fun i => rotulo_dono (s.dono_frame i)) := by
  simp [exibir_ram, List.map_map, Function.comp_def]

/-! ## State after `inicializar_sistema` -/

theorem init_processo_0 (s0 : Sistema) :
    (inicializar_sistema s0).processos 0 = { pid := 1, ptbr_offset := 0 } := rfl

theorem init_processo_1 (s0 : Sistema) :
    (inicializar_sistema s0).processos 1 = { pid := 2, ptbr_offset := 256 } := rfl

theorem init_processo_2 (s0 : Sistema) :
    (inicializar_sistema s0).processos 2 = { pid := 3, ptbr_offset := 512 } := rfl

theorem init_RAM (s0 : Sistema) :
    (inicializar_sistema s0).RAM = (inicializar_sistema sistema_zero).RAM := rfl

theorem init_dono_frame (s0 : Sistema) :
    (inicializar_sistema s0).dono_frame = (inicializar_sistema sistema_zero).dono_frame := rfl

theorem init_processo (s0 : Sistema) (k : Nat) (hk : k < 3) :
    (inicializar_sistema s0).processos k
      = { pid := (k : Int) + 1, ptbr_offset := 256 * (k : Int) } := by
  interval_cases k
  · rw [init_processo_0]; rfl
  · rw [init_processo_1]; rfl
  · rw [init_processo_2]; rfl

theorem init_frame_intervalo (s0 : Sistema) (k : Nat) (q : Int) (hk : k < 3)
    (hq0 : 0 ≤ q) (hq : q < 4) :
    1 ≤ (((inicializar_sistema s0).RAM (256 * (k : Int) + q).toNat : Nat) : Int) ∧
    (((inicializar_sistema s0).RAM (256 * (k : Int) + q).toNat : Nat) : Int) ≤ 15 := by
  rw [init_RAM]
  interval_cases k <;> interval_cases q <;> decide

theorem init_dono_da_entrada (k n : Nat) (hk : k < 3) (hn : n < 4) :
    (inicializar_sistema sistema_zero).dono_frame
        ((inicializar_sistema sistema_zero).RAM (256 * (k : Int) + (n : Int)).toNat)
      = (k : Int) + 1 := by
  interval_cases k <;> interval_cases n <;> decide

theorem init_entrada_do_dono (f k : Nat) (hf : f < 16) (hk : k < 3)
    (h : (inicializar_sistema sistema_zero).dono_frame f = (k : Int) + 1) :
    ∃ n : Nat, n < 4 ∧
      (inicializar_sistema sistema_zero).RAM (256 * (k : Int) + (n : Int)).toNat = f := by
  have key : ∀ f : Fin 16, ∀ k : Fin 3,
      (inicializar_sistema sistema_zero).dono_frame f.val = ((k.val : Nat) : Int) + 1 →
      ∃ n : Fin 4, (inicializar_sistema sistema_zero).RAM
        (256 * ((k.val : Nat) : Int) + ((n.val : Nat) : Int)).toNat = f.val := by
    decide
  obtain ⟨n, hn⟩ := key ⟨f, hf⟩ ⟨k, hk⟩ h
  exact ⟨n.val, n.isLt, hn⟩

theorem init_RAM_bytes (s0 : Sistema) (k : Nat) :
    (inicializar_sistema s0).RAM k =
      if k = 515 then 15 else if k = 514 then 14 else if k = 513 then 4 else if k = 512 then 3
      else if k = 259 then 13 else if k = 258 then 12 else if k = 257 then 2
      else if k = 256 then 1 else if k = 3 then 11 else if k = 2 then 9
      else if k = 1 then 8 else if k = 0 then 5 else 0 := rfl

theorem mmu_resultado (s : Sistema) (p : TCB) (a : Int) (t : Traducao)
    (h : (mmu_traduzir_endereco s p a).2 = some t) :
    0 ≤ p.ptbr_offset + a / 1024 ∧ p.ptbr_offset + a / 1024 < 16384 ∧
    t.offset = a % 1024 ∧
    t.num_frame = (s.RAM (p.ptbr_offset + a / 1024).toNat : Int) ∧
    t.endereco_fisico = (s.RAM (p.ptbr_offset + a / 1024).toNat : Int) * 1024 + a % 1024 := by
  by_cases hb : 0 ≤ p.ptbr_offset + a / 1024 ∧ p.ptbr_offset + a / 1024 < 16384
  · rw [mmu_definido s p a hb.1 hb.2] at h
    have ht := Option.some.inj h
    subst ht
    exact ⟨hb.1, hb.2, rfl, rfl, rfl⟩
  · rw [mmu_indefinido s p a (by omega)] at h
    exact absurd h (by simp)

/-! ## The menu loop of `main` -/

theorem main_inicio_invariante (s0 : Sistema) :
    main_invariante s0 (main_inicio s0).1 (main_inicio s0).2 :=
  ⟨rfl, rfl, 0, by decide, rfl, rfl⟩

theorem main_passo_mudar_invalido (s : Sistema) (sh : Shell) (e : Int) (h : e < 1 ∨ e > 3) :
    main_passo s sh 1 e = (s, sh, Saida.processo_invalido sh.pid_ativo) := by
  unfold main_passo
  rw [if_pos rfl, if_pos h]

theorem main_passo_mudar_valido (s : Sistema) (sh : Shell) (e : Int) (h : ¬ (e < 1 ∨ e > 3)) :
    main_passo s sh 1 e
      = (s, { sh with pid_ativo := e, processo_ativo := s.processos (e - 1).toNat },
          Saida.processo_atualizado e) := by
  unfold main_passo
  rw [if_pos rfl, if_neg h]

theorem main_passo_acessar_invalido (s : Sistema) (sh : Shell) (e : Int) (h : e < 0 ∨ e > 3) :
    main_passo s sh 2 e = (s, sh, Saida.variavel_invalida) := by
  unfold main_passo
  rw [if_neg (by decide), if_pos rfl, if_pos h]

theorem main_passo_acessar_valido (s : Sistema) (sh : Shell) (e : Int) (h : ¬ (e < 0 ∨ e > 3)) :
    main_passo s sh 2 e
      = ((mmu_traduzir_endereco s sh.processo_ativo (sh.enderecos_logicos e.toNat)).1, sh,
          Saida.traducao
            (mmu_traduzir_endereco s sh.processo_ativo (sh.enderecos_logicos e.toNat)).2) := by
  unfold main_passo
  rw [if_neg (by decide), if_pos rfl, if_neg h]

theorem main_passo_outros (s : Sistema) (sh : Shell) (m e : Int) (h1 : m ≠ 1) (h2 : m ≠ 2) :
    main_passo s sh m e = (s, sh, (main_passo s sh m e).2.2) ∧
    ∀ t, (main_passo s sh m e).2.2 ≠ Saida.traducao t := by
  unfold main_passo
  rw [if_neg h1, if_neg h2]
  by_cases h3 : m = 3
  · rw [if_pos h3]
    exact ⟨rfl, fun t h => Saida.noConfusion h⟩
  · rw [if_neg h3]
    by_cases h0 : m = 0
    · rw [if_pos h0]
      exact ⟨rfl, fun t h => Saida.noConfusion h⟩
    · rw [if_neg h0]
      exact ⟨rfl, fun t h => Saida.noConfusion h⟩

theorem main_passo_invariante (s0 s : Sistema) (sh : Shell) (m e : Int)
    (h : main_invariante s0 s sh) :
    main_invariante s0 (main_passo s sh m e).1 (main_passo s sh m e).2.1 := by
  obtain ⟨hs, he, k, hk, hp, hpid⟩ := h
  by_cases h1 : m = 1
  · subst h1
    by_cases hg : e < 1 ∨ e > 3
    · rw [main_passo_mudar_invalido s sh e hg]
      exact ⟨hs, he, k, hk, hp, hpid⟩
    · rw [main_passo_mudar_valido s sh e hg]
      refine ⟨hs, he, (e - 1).toNat, by omega, ?_, ?_⟩
      · show s.processos (e - 1).toNat = _
        rw [hs]
      · show e = (((e - 1).toNat : Nat) : Int) + 1
        omega
  · by_cases h2 : m = 2
    · subst h2
      by_cases hg : e < 0 ∨ e > 3
      · rw [main_passo_acessar_invalido s sh e hg]
        exact ⟨hs, he, k, hk, hp, hpid⟩
      · rw [main_passo_acessar_valido s sh e hg]
        exact ⟨by rw [mmu_estado]; exact hs, he, k, hk, hp, hpid⟩
    · rw [(main_passo_outros s sh m e h1 h2).1]
      exact ⟨hs, he, k, hk, hp, hpid⟩

theorem main_laco_invariante (s0 : Sistema) (entradas : List (Int × Int)) :
    ∀ (s : Sistema) (sh : Shell), main_invariante s0 s sh →
      main_invariante s0 (main_laco s sh entradas).1 (main_laco s sh entradas).2.1 := by
  induction entradas with
  | nil => intro s sh h; exact h
  | cons x resto ih =>
    intro s sh h
    obtain ⟨m, e⟩ := x
    have hp := main_passo_invariante s0 s sh m e h
    unfold main_laco
    split_ifs with h0
    · exact hp
    · exact ih _ _ hp

theorem main_invariante_final (s0 : Sistema) (entradas : List (Int × Int)) :
    main_invariante s0 (main s0 entradas).1 (main s0 entradas).2.1 :=
  main_laco_invariante s0 entradas _ _ (main_inicio_invariante s0)

theorem main_enderecos (s0 : Sistema) (i : Int) (h0 : 0 ≤ i) (h3 : i ≤ 3) :
    (main_inicio s0).2.enderecos_logicos i.toNat
      = i * 1024 + (if i = 0 then 100 else if i = 1 then 200 else if i = 2 then 50 else 300) := by
  interval_cases i <;> rfl

theorem main_passo_traducao (s0 s : Sistema) (sh : Shell) (m e : Int)
    (h : main_invariante s0 s sh) (r : Option Traducao)
    (hr : (main_passo s sh m e).2.2 = Saida.traducao r) :
    m = 2 ∧ 0 ≤ e ∧ e ≤ 3 ∧
    r = (mmu_traduzir_endereco (inicializar_sistema s0) sh.processo_ativo
          ((main_inicio s0).2.enderecos_logicos e.toNat)).2 := by
  obtain ⟨hs, he, _⟩ := h
  by_cases h1 : m = 1
  · subst h1
    by_cases hg : e < 1 ∨ e > 3
    · rw [main_passo_mudar_invalido s sh e hg] at hr
      exact Saida.noConfusion hr
    · rw [main_passo_mudar_valido s sh e hg] at hr
      exact Saida.noConfusion hr
  · by_cases h2 : m = 2
    · subst h2
      by_cases hg : e < 0 ∨ e > 3
      · rw [main_passo_acessar_invalido s sh e hg] at hr
        exact Saida.noConfusion hr
      · rw [main_passo_acessar_valido s sh e hg] at hr
        have hr2 := Saida.traducao.inj hr
        rw [hs, he] at hr2
        exact ⟨rfl, by omega, by omega, hr2.symm⟩
    · exact absurd hr ((main_passo_outros s sh m e h1 h2).2 r)

theorem main_laco_saidas (s0 : Sistema) (entradas : List (Int × Int)) :
    ∀ (s : Sistema) (sh : Shell), main_invariante s0 s sh →
      ∀ r : Option Traducao, Saida.traducao r ∈ (main_laco s sh entradas).2.2 →
        ∃ (k : Nat) (e : Int), k < 3 ∧ 0 ≤ e ∧ e ≤ 3 ∧
          r = (mmu_traduzir_endereco (inicializar_sistema s0)
                ((inicializar_sistema s0).processos k)
                ((main_inicio s0).2.enderecos_logicos e.toNat)).2 := by
  induction entradas with
  | nil =>
    intro s sh _ r hr
    exact absurd hr (List.not_mem_nil _)
  | cons x resto ih =>
    intro s sh h r hr
    obtain ⟨m, e⟩ := x
    have hstep : ∀ r : Option Traducao, (main_passo s sh m e).2.2 = Saida.traducao r →
        ∃ (k : Nat) (e : Int), k < 3 ∧ 0 ≤ e ∧ e ≤ 3 ∧
          r = (mmu_traduzir_endereco (inicializar_sistema s0)
                ((inicializar_sistema s0).processos k)
                ((main_inicio s0).2.enderecos_logicos e.toNat)).2 := by
      intro r hr
      obtain ⟨_, h0, h3, hres⟩ := main_passo_traducao s0 s sh m e h r hr
      obtain ⟨_, _, k, hk, hp, _⟩ := h
      exact ⟨k, e, hk, h0, h3, by rw [← hp]; exact hres⟩
    unfold main_laco at hr
    split_ifs at hr with h0
    · have : Saida.traducao r = (main_passo s sh m e).2.2 := List.mem_singleton.mp hr
      exact hstep r this.symm
    · rcases List.mem_cons.mp hr with hh | ht
      · exact hstep r hh.symm
      · exact ih _ _ (main_passo_invariante s0 s sh m e h) r ht

/-! ## Claims -/

/-- C1: after `inicializar_sistema`, for each configured process (index `i < 3`,
pid `i + 1`), page `n` in `[0, 4)` and offset `d` in `[0, 1024)`, translating
`n * 1024 + d` yields page number `n`, offset `d`, entry address
`ptbr_offset + n`, the frame stored in `RAM` at that entry and physical address
`frame * 1024 + d`; for P1 and logical address 1224 the values are page 1,
offset 200, frame 8 and physical address 8392. -/
theorem C1_traducao_configurada (s0 : Sistema) (i : Nat) (n d : Int)
    (hi : i < 3) (hn0 : 0 ≤ n) (hn : n < 4) (hd0 : 0 ≤ d) (hd : d < 1024) :
    ((inicializar_sistema s0).processos i).pid = (i : Int) + 1 ∧
    (∃ t, (mmu_traduzir_endereco (inicializar_sistema s0)
          ((inicializar_sistema s0).processos i) (n * 1024 + d)).2 = some t ∧
      t.num_pagina = n ∧ t.offset = d ∧
      t.endereco_entrada_tabela = ((inicializar_sistema s0).processos i).ptbr_offset + n ∧
      ler (inicializar_sistema s0).RAM TAMANHO_RAM
          (((inicializar_sistema s0).processos i).ptbr_offset + n) = some t.num_frame.toNat ∧
      0 ≤ t.num_frame ∧
      t.endereco_fisico = t.num_frame * 1024 + d) ∧
    (∃ t, (mmu_traduzir_endereco (inicializar_sistema s0)
          ((inicializar_sistema s0).processos 0) 1224).2 = some t ∧
      t.num_pagina = 1 ∧ t.offset = 200 ∧ t.num_frame = 8 ∧ t.endereco_fisico = 8392) := by
  have hdiv : (n * 1024 + d) / 1024 = n := by omega
  have hmod : (n * 1024 + d) % 1024 = d := by omega
  refine ⟨?_, ?_, ?_⟩
  · interval_cases i <;> rfl
  · have hp : 0 ≤ ((inicializar_sistema s0).processos i).ptbr_offset ∧
        ((inicializar_sistema s0).processos i).ptbr_offset ≤ 512 := by
      interval_cases i
      · rw [init_processo_0]; decide
      · rw [init_processo_1]; decide
      · rw [init_processo_2]; decide
    rw [mmu_definido _ _ _ (by omega) (by omega)]
    refine ⟨_, rfl, hdiv, hmod, ?_, ?_, ?_, ?_⟩
    · show _ + (n * 1024 + d) / 1024 = _
      rw [hdiv]
    · show _ = some (Int.toNat (((inicializar_sistema s0).RAM _ : Nat) : Int))
      rw [hdiv, Int.toNat_ofNat]
      unfold ler
      rw [if_pos]
      have : ((TAMANHO_RAM : Nat) : Int) = 16384 := by decide
      omega
    · exact Int.ofNat_nonneg _
    · show _ * 1024 + (n * 1024 + d) % 1024 = _
      rw [hmod]
  · rw [init_processo_0, mmu_definido _ _ _ (by decide) (by decide)]
    refine ⟨_, rfl, ?_, ?_, ?_, ?_⟩
    · show (1224 : Int) / 1024 = 1
      decide
    · show (1224 : Int) % 1024 = 200
      decide
    · show (((inicializar_sistema s0).RAM ((0 : Int) + 1224 / 1024).toNat : Nat) : Int) = 8
      rw [init_RAM]
      decide
    · show (((inicializar_sistema s0).RAM ((0 : Int) + 1224 / 1024).toNat : Nat) : Int) * 1024
        + 1224 % 1024 = 8392
      rw [init_RAM]
      decide

/-- Witness for C1: process P3 (index 2), page 3, offset 1023. -/
theorem C1_traducao_configurada_witness :
    ((inicializar_sistema sistema_zero).processos 2).pid = 3 ∧
    (mmu_traduzir_endereco (inicializar_sistema sistema_zero)
        ((inicializar_sistema sistema_zero).processos 2) 4095).2.map
      (fun t => (t.num_pagina, t.offset, t.endereco_entrada_tabela, t.num_frame,
        t.endereco_fisico)) = some (3, 1023, 515, 15, 16383) ∧
    ∃ t, (mmu_traduzir_endereco (inicializar_sistema sistema_zero)
          ((inicializar_sistema sistema_zero).processos 2) (3 * 1024 + 1023)).2 = some t ∧
      t.num_pagina = 3 ∧ t.offset = 1023 :=
  have h := C1_traducao_configurada sistema_zero 2 3 1023 (by decide) (by decide) (by decide)
    (by decide) (by decide)
  ⟨by decide, by decide, by
    obtain ⟨t, ht, h1, h2, _⟩ := h.2.1
    exact ⟨t, ht, h1, h2⟩⟩

/-- C2 (counterexample): after initialisation, logical address 4096 under P1
does not fail: the translation yields page 4, entry address 4, frame 0 and
physical address 0; address -1 under P2 yields page -1, offset 1023, entry
address 255, frame 0 and physical address 1023. -/
theorem C2_counterexample :
    (mmu_traduzir_endereco (inicializar_sistema sistema_zero)
        ((inicializar_sistema sistema_zero).processos 0) 4096).2.map Traducao.valores
      = some (4, 0, 4, 0, 0) ∧
    (mmu_traduzir_endereco (inicializar_sistema sistema_zero)
        ((inicializar_sistema sistema_zero).processos 1) (-1)).2.map Traducao.valores
      = some (-1, 1023, 255, 0, 1023) := by
  constructor <;> decide

/-- C2 (amended): the translation has no check on the logical address.  For
any state, descriptor and address it produces a translation whenever the entry
index `ptbr_offset + (a >> 10)` lies inside `RAM`; after initialisation, for a
configured process, every address in `[0, 4096)` is translated, and so is 4096
itself, giving page 4, the zero byte at `ptbr_offset + 4` as frame and
physical address 0. -/
theorem C2_sem_validacao_de_endereco (s0 : Sistema) (i : Nat) (hi : i < 3) :
    (∀ (s : Sistema) (p : TCB) (a : Int),
      0 ≤ p.ptbr_offset + c_shr a 10 → p.ptbr_offset + c_shr a 10 < (TAMANHO_RAM : Int) →
      ∃ t, (mmu_traduzir_endereco s p a).2 = some t) ∧
    (∀ a : Int, 0 ≤ a → a < 4096 →
      ∃ t, (mmu_traduzir_endereco (inicializar_sistema s0)
        ((inicializar_sistema s0).processos i) a).2 = some t) ∧
    (∃ t, (mmu_traduzir_endereco (inicializar_sistema s0)
        ((inicializar_sistema s0).processos i) 4096).2 = some t ∧
      t.num_pagina = 4 ∧
      t.endereco_entrada_tabela = ((inicializar_sistema s0).processos i).ptbr_offset + 4 ∧
      t.num_frame = 0 ∧ t.endereco_fisico = 0) := by
  have hRAM : ((TAMANHO_RAM : Nat) : Int) = 16384 := by decide
  have hp : ((inicializar_sistema s0).processos i).ptbr_offset = 0 ∨
      ((inicializar_sistema s0).processos i).ptbr_offset = 256 ∨
      ((inicializar_sistema s0).processos i).ptbr_offset = 512 := by
    interval_cases i
    · rw [init_processo_0]; decide
    · rw [init_processo_1]; decide
    · rw [init_processo_2]; decide
  refine ⟨?_, ?_, ?_⟩
  · intro s p a h0 h1
    rw [c_shr_dez] at h0 h1
    rw [mmu_definido s p a h0 (by omega)]
    exact ⟨_, rfl⟩
  · intro a ha0 ha
    rw [mmu_definido _ _ a (by omega) (by omega)]
    exact ⟨_, rfl⟩
  · rw [mmu_definido _ _ 4096 (by omega) (by omega)]
    refine ⟨_, rfl, ?_, ?_, ?_, ?_⟩
    · show (4096 : Int) / 1024 = 4
      decide
    · show _ + (4096 : Int) / 1024 = _
      norm_num
    · show (((inicializar_sistema s0).RAM
        (((inicializar_sistema s0).processos i).ptbr_offset + 4096 / 1024).toNat : Nat) : Int) = 0
      rw [init_RAM]
      rcases hp with h | h | h <;> rw [h] <;> decide
    · show (((inicializar_sistema s0).RAM
        (((inicializar_sistema s0).processos i).ptbr_offset + 4096 / 1024).toNat : Nat) : Int)
          * 1024 + 4096 % 1024 = 0
      rw [init_RAM]
      rcases hp with h | h | h <;> rw [h] <;> decide

/-- Witness for C2 (amended): process P2 (index 1). -/
theorem C2_sem_validacao_de_endereco_witness :
    (∃ t, (mmu_traduzir_endereco (inicializar_sistema sistema_zero)
        ((inicializar_sistema sistema_zero).processos 1) 4095).2 = some t) ∧
    (∃ t, (mmu_traduzir_endereco (inicializar_sistema sistema_zero)
        ((inicializar_sistema sistema_zero).processos 1) 4096).2 = some t ∧
      t.num_pagina = 4 ∧
      t.endereco_entrada_tabela
        = ((inicializar_sistema sistema_zero).processos 1).ptbr_offset + 4 ∧
      t.num_frame = 0 ∧ t.endereco_fisico = 0) :=
  ⟨(C2_sem_validacao_de_endereco sistema_zero 1 (by decide)).2.1 4095 (by decide) (by decide),
   (C2_sem_validacao_de_endereco sistema_zero 1 (by decide)).2.2⟩

/-- C3 (counterexample): with the entry byte of P1's page 0 holding 200, the
translation of logical address 100 under P1 does not fail: it returns frame 200
and physical address 204900, which is beyond the 16384 bytes of `RAM`. -/
theorem C3_counterexample :
    sistema_entrada_200.RAM 0 = 200 ∧
    (mmu_traduzir_endereco sistema_entrada_200 (sistema_entrada_200.processos 0) 100).2.map
      Traducao.valores = some (0, 100, 0, 200, 204900) ∧
    ((TAMANHO_RAM : Nat) : Int) ≤ 204900 := by
  refine ⟨?_, ?_, ?_⟩ <;> decide

/-- C3 (amended): the translation has no check on the frame number.  Whenever
the selected entry index lies inside `RAM` and the byte there is at least 16,
the translation returns that byte as frame and `frame * 1024 + offset` as
physical address, and this address is at least 16384. -/
theorem C3_sem_validacao_de_frame (s : Sistema) (p : TCB) (a : Int)
    (h0 : 0 ≤ p.ptbr_offset + c_shr a 10)
    (h1 : p.ptbr_offset + c_shr a 10 < (TAMANHO_RAM : Int))
    (hf : QUADROS_RAM ≤ s.RAM (p.ptbr_offset + c_shr a 10).toNat) :
    ∃ t, (mmu_traduzir_endereco s p a).2 = some t ∧
      t.num_frame = (s.RAM (p.ptbr_offset + c_shr a 10).toNat : Int) ∧
      t.endereco_fisico = t.num_frame * (TAMANHO_PAGINA : Int) + c_and a MASCARA_OFFSET ∧
      ((TAMANHO_RAM : Nat) : Int) ≤ t.endereco_fisico := by
  have hRAM : ((TAMANHO_RAM : Nat) : Int) = 16384 := by decide
  have hPAG : ((TAMANHO_PAGINA : Nat) : Int) = 1024 := by decide
  have hQ : QUADROS_RAM = 16 := rfl
  rw [c_shr_dez] at h0 h1 hf
  rw [c_shr_dez, c_and_mascara, mmu_definido s p a h0 (by omega), hRAM, hPAG]
  refine ⟨_, rfl, rfl, rfl, ?_⟩
  show (16384 : Int) ≤ (s.RAM (p.ptbr_offset + a / 1024).toNat : Int) * 1024 + a % 1024
  have hf2 : (16 : Int) ≤ (s.RAM (p.ptbr_offset + a / 1024).toNat : Int) := by
    rw [hQ] at hf
    exact_mod_cast hf
  omega

/-- Witness for C3 (amended): the state with entry byte 200, P1, address 100. -/
theorem C3_sem_validacao_de_frame_witness :
    ∃ t, (mmu_traduzir_endereco sistema_entrada_200 (sistema_entrada_200.processos 0) 100).2
        = some t ∧
      t.num_frame = (sistema_entrada_200.RAM
        ((sistema_entrada_200.processos 0).ptbr_offset + c_shr 100 10).toNat : Int) ∧
      t.endereco_fisico = t.num_frame * (TAMANHO_PAGINA : Int) + c_and 100 MASCARA_OFFSET ∧
      ((TAMANHO_RAM : Nat) : Int) ≤ t.endereco_fisico :=
  C3_sem_validacao_de_frame sistema_entrada_200 (sistema_entrada_200.processos 0) 100
    (by decide) (by decide) (by decide)

/-- C4: after `inicializar_sistema`, two distinct configured processes map every
logical address in `[0, 4096)` to different frames and to different physical
addresses; logical address 100 gives 5220 under P1 and 1124 under P2. -/
theorem C4_isolamento_entre_processos (s0 : Sistema) (i j : Nat) (a : Int)
    (hi : i < 3) (hj : j < 3) (hij : i ≠ j) (ha0 : 0 ≤ a) (ha : a < 4096) :
    (∃ ti tj,
      (mmu_traduzir_endereco (inicializar_sistema s0)
        ((inicializar_sistema s0).processos i) a).2 = some ti ∧
      (mmu_traduzir_endereco (inicializar_sistema s0)
        ((inicializar_sistema s0).processos j) a).2 = some tj ∧
      ti.num_frame ≠ tj.num_frame ∧ ti.endereco_fisico ≠ tj.endereco_fisico) ∧
    (mmu_traduzir_endereco (inicializar_sistema s0)
        ((inicializar_sistema s0).processos 0) 100).2.map Traducao.endereco_fisico = some 5220 ∧
    (mmu_traduzir_endereco (inicializar_sistema s0)
        ((inicializar_sistema s0).processos 1) 100).2.map Traducao.endereco_fisico
      = some 1124 := by
  have hp : ∀ k, k < 3 → ((inicializar_sistema s0).processos k).ptbr_offset = 256 * (k : Int) := by
    intro k hk
    interval_cases k
    · rw [init_processo_0]; decide
    · rw [init_processo_1]; decide
    · rw [init_processo_2]; decide
  have hq0 : 0 ≤ a / 1024 := by omega
  have hq : a / 1024 < 4 := by omega
  refine ⟨?_, ?_, ?_⟩
  · rw [mmu_definido _ _ a (by rw [hp i hi]; omega) (by rw [hp i hi]; omega),
      mmu_definido _ _ a (by rw [hp j hj]; omega) (by rw [hp j hj]; omega)]
    have hfr : (((inicializar_sistema s0).RAM
          (((inicializar_sistema s0).processos i).ptbr_offset + a / 1024).toNat : Nat) : Int)
        ≠ (((inicializar_sistema s0).RAM
          (((inicializar_sistema s0).processos j).ptbr_offset + a / 1024).toNat : Nat) : Int) := by
      rw [hp i hi, hp j hj, init_RAM]
      generalize a / 1024 = q at hq0 hq
      interval_cases q <;> interval_cases i <;> interval_cases j <;>
        first
          | exact absurd rfl hij
          | decide
    refine ⟨_, _, rfl, rfl, hfr, ?_⟩
    show _ * 1024 + a % 1024 ≠ _ * 1024 + a % 1024
    omega
  · rw [init_processo_0, mmu_definido _ _ 100 (by decide) (by decide), init_RAM]
    show some ((((inicializar_sistema sistema_zero).RAM ((0 : Int) + 100 / 1024).toNat : Nat)
      : Int) * 1024 + 100 % 1024) = some 5220
    decide
  · rw [init_processo_1, mmu_definido _ _ 100 (by decide) (by decide), init_RAM]
    show some ((((inicializar_sistema sistema_zero).RAM ((256 : Int) + 100 / 1024).toNat : Nat)
      : Int) * 1024 + 100 % 1024) = some 1124
    decide

/-- Witness for C4: P1 against P3 at logical address 3372. -/
theorem C4_isolamento_entre_processos_witness :
    ∃ ti tj,
      (mmu_traduzir_endereco (inicializar_sistema sistema_zero)
        ((inicializar_sistema sistema_zero).processos 0) 3372).2 = some ti ∧
      (mmu_traduzir_endereco (inicializar_sistema sistema_zero)
        ((inicializar_sistema sistema_zero).processos 2) 3372).2 = some tj ∧
      ti.num_frame ≠ tj.num_frame ∧ ti.endereco_fisico ≠ tj.endereco_fisico :=
  (C4_isolamento_entre_processos sistema_zero 0 2 3372 (by decide) (by decide) (by decide)
    (by decide) (by decide)).1

/-- C5 (counterexample): for the descriptor with `ptbr_offset = 1024` the entry
index of logical address 0 is 1024, the first byte of frame 1; the translation
does not fail, it reads that byte (0) as frame number and returns physical
address 0. -/
theorem C5_counterexample :
    ¬ (tcb_base_1024.ptbr_offset + c_shr 0 10 < (TAMANHO_PAGINA : Int)) ∧
    (mmu_traduzir_endereco (inicializar_sistema sistema_zero) tcb_base_1024 0).2.map
      Traducao.valores = some (0, 0, 1024, 0, 0) := by
  constructor <;> decide

/-- C5 (amended): the translation has no check that the entry index lies in
frame 0.  Whenever `ptbr_offset + page_number` lies outside frame 0 but inside
`RAM`, i.e. in `[1024, 16384)`, the translation reads the frame number from that
byte and returns `frame * 1024 + offset`. -/
theorem C5_sem_validacao_de_entrada (s : Sistema) (p : TCB) (a : Int)
    (h0 : (TAMANHO_PAGINA : Int) ≤ p.ptbr_offset + c_shr a 10)
    (h1 : p.ptbr_offset + c_shr a 10 < (TAMANHO_RAM : Int)) :
    ∃ t, (mmu_traduzir_endereco s p a).2 = some t ∧
      t.endereco_entrada_tabela = p.ptbr_offset + c_shr a 10 ∧
      t.num_frame = (s.RAM (p.ptbr_offset + c_shr a 10).toNat : Int) ∧
      t.endereco_fisico = t.num_frame * (TAMANHO_PAGINA : Int) + c_and a MASCARA_OFFSET := by
  have hRAM : ((TAMANHO_RAM : Nat) : Int) = 16384 := by decide
  have hPAG : ((TAMANHO_PAGINA : Nat) : Int) = 1024 := by decide
  rw [c_shr_dez] at h0 h1
  rw [c_shr_dez, c_and_mascara, mmu_definido s p a (by omega) (by omega), hPAG]
  exact ⟨_, rfl, rfl, rfl, rfl⟩

/-- Witness for C5 (amended): the descriptor with base 1024 at address 0. -/
theorem C5_sem_validacao_de_entrada_witness :
    ∃ t, (mmu_traduzir_endereco (inicializar_sistema sistema_zero) tcb_base_1024 0).2 = some t ∧
      t.endereco_entrada_tabela = tcb_base_1024.ptbr_offset + c_shr 0 10 ∧
      t.num_frame = ((inicializar_sistema sistema_zero).RAM
        (tcb_base_1024.ptbr_offset + c_shr 0 10).toNat : Int) ∧
      t.endereco_fisico = t.num_frame * (TAMANHO_PAGINA : Int) + c_and 0 MASCARA_OFFSET :=
  C5_sem_validacao_de_entrada (inicializar_sistema sistema_zero) tcb_base_1024 0
    (by decide) (by decide)

/-- C6: for every logical address `a` in `[0, 4096)` the shift and the mask of
the translation agree with integer division by 1024 (the truncating `/` and `%`
of C, which on these addresses are also the floor quotient and remainder):
`a >> 10 = a / 1024`, `a & 0x03FF = a mod 1024`, the two parts recombine to `a`,
and these are the page number and offset of every translation of `a`. -/
theorem C6_decomposicao_por_mascara (a : Int) (ha0 : 0 ≤ a) (_ha : a < 4096) :
    c_shr a 10 = Int.tdiv a 1024 ∧ c_and a MASCARA_OFFSET = Int.tmod a 1024 ∧
    c_shr a 10 = a / 1024 ∧ c_and a MASCARA_OFFSET = a % 1024 ∧
    c_shr a 10 * 1024 + c_and a MASCARA_OFFSET = a ∧
    (∀ (s : Sistema) (p : TCB) (t : Traducao), (mmu_traduzir_endereco s p a).2 = some t →
      t.num_pagina = a / 1024 ∧ t.offset = a % 1024 ∧ t.num_pagina * 1024 + t.offset = a) := by
  refine ⟨?_, ?_, c_shr_dez a, c_and_mascara a, ?_, ?_⟩
  · rw [c_shr_dez, Int.tdiv_eq_ediv ha0 (by decide)]
  · rw [c_and_mascara, Int.tmod_eq_emod ha0 (by decide)]
  · rw [c_shr_dez, c_and_mascara]
    omega
  · intro s p t h
    obtain ⟨h1, h2⟩ := mmu_decomposicao s p a t h
    refine ⟨h1, h2, ?_⟩
    rw [h1, h2]
    omega

/-- Witness for C6: logical address 3372 (page 3, offset 300). -/
theorem C6_decomposicao_por_mascara_witness :
    c_shr 3372 10 = Int.tdiv 3372 1024 ∧ c_and 3372 MASCARA_OFFSET = Int.tmod 3372 1024 ∧
    c_shr 3372 10 * 1024 + c_and 3372 MASCARA_OFFSET = 3372 ∧
    c_shr 3372 10 = 3 ∧ c_and 3372 MASCARA_OFFSET = 300 :=
  have h := C6_decomposicao_por_mascara 3372 (by decide) (by decide)
  ⟨h.1, h.2.1, h.2.2.2.2.1, by decide, by decide⟩

/-- C7: after `inicializar_sistema` two distinct process descriptors have
different pids, their bases are at least 4 bytes apart so the entry ranges
`[ptbr_offset, ptbr_offset + 4)` share no index, and each range lies inside
frame 0, within `[0, 1024)`. -/
theorem C7_tabelas_disjuntas_no_frame_0 (s0 : Sistema) (i j : Nat)
    (hi : i < PROCESSOS_COUNT) (hj : j < PROCESSOS_COUNT) (hij : i ≠ j) :
    ((inicializar_sistema s0).processos i).pid ≠ ((inicializar_sistema s0).processos j).pid ∧
    (((inicializar_sistema s0).processos i).ptbr_offset + (PAGINAS_PROCESSO : Int)
        ≤ ((inicializar_sistema s0).processos j).ptbr_offset ∨
      ((inicializar_sistema s0).processos j).ptbr_offset + (PAGINAS_PROCESSO : Int)
        ≤ ((inicializar_sistema s0).processos i).ptbr_offset) ∧
    (∀ k : Int,
      (((inicializar_sistema s0).processos i).ptbr_offset ≤ k ∧
        k < ((inicializar_sistema s0).processos i).ptbr_offset + (PAGINAS_PROCESSO : Int)) →
      ¬ (((inicializar_sistema s0).processos j).ptbr_offset ≤ k ∧
        k < ((inicializar_sistema s0).processos j).ptbr_offset + (PAGINAS_PROCESSO : Int))) ∧
    0 ≤ ((inicializar_sistema s0).processos i).ptbr_offset ∧
    ((inicializar_sistema s0).processos i).ptbr_offset + (PAGINAS_PROCESSO : Int)
      ≤ (TAMANHO_PAGINA : Int) := by
  have hP : ((PAGINAS_PROCESSO : Nat) : Int) = 4 := by decide
  have hT : ((TAMANHO_PAGINA : Nat) : Int) = 1024 := by decide
  have hC : PROCESSOS_COUNT = 3 := rfl
  rw [hC] at hi hj
  have hp : ∀ k, k < 3 → (inicializar_sistema s0).processos k
      = { pid := (k : Int) + 1, ptbr_offset := 256 * (k : Int) } := by
    intro k hk
    interval_cases k
    · rw [init_processo_0]; rfl
    · rw [init_processo_1]; rfl
    · rw [init_processo_2]; rfl
  rw [hp i hi, hp j hj, hP, hT]
  have hi2 : (i : Int) < 3 := by exact_mod_cast hi
  have hj2 : (j : Int) < 3 := by exact_mod_cast hj
  have hij2 : (i : Int) ≠ (j : Int) := by exact_mod_cast hij
  refine ⟨?_, ?_, ?_, ?_, ?_⟩
  · show (i : Int) + 1 ≠ (j : Int) + 1
    omega
  · show 256 * (i : Int) + 4 ≤ 256 * (j : Int) ∨ 256 * (j : Int) + 4 ≤ 256 * (i : Int)
    omega
  · intro k
    show (256 * (i : Int) ≤ k ∧ k < 256 * (i : Int) + 4) →
      ¬ (256 * (j : Int) ≤ k ∧ k < 256 * (j : Int) + 4)
    omega
  · show 0 ≤ 256 * (i : Int)
    omega
  · show 256 * (i : Int) + 4 ≤ 1024
    omega

/-- Witness for C7: P2 against P3. -/
theorem C7_tabelas_disjuntas_no_frame_0_witness :
    ((inicializar_sistema sistema_zero).processos 1).pid
      ≠ ((inicializar_sistema sistema_zero).processos 2).pid ∧
    ((inicializar_sistema sistema_zero).processos 1).ptbr_offset = 256 ∧
    ((inicializar_sistema sistema_zero).processos 2).ptbr_offset = 512 ∧
    ((inicializar_sistema sistema_zero).processos 1).ptbr_offset + (PAGINAS_PROCESSO : Int)
      ≤ (TAMANHO_PAGINA : Int) :=
  have h := C7_tabelas_disjuntas_no_frame_0 sistema_zero 1 2 (by decide) (by decide) (by decide)
  ⟨h.1, by decide, by decide, h.2.2.2.2⟩

/-- C8: after `inicializar_sistema`, `dono_frame[0]` is -1 (page-table region),
the frames of `0 .. 15` tagged 0 (free) are exactly 6, 7 and 10, and
`exibir_ram` prints `[ TABELA PAGINAS ]` for frame 0 and `[     LIVRE      ]`
for frames 6, 7 and 10, whatever frame is highlighted. -/
theorem C8_donos_tabela_e_livres (s0 : Sistema) (frame_acessado : Int) :
    (inicializar_sistema s0).dono_frame 0 = -1 ∧
    (inicializar_sistema s0).dono_frame 6 = 0 ∧
    (inicializar_sistema s0).dono_frame 7 = 0 ∧
    (inicializar_sistema s0).dono_frame 10 = 0 ∧
    (∀ f : Fin 16, (inicializar_sistema s0).dono_frame f.val = 0 ↔
      (f.val = 6 ∨ f.val = 7 ∨ f.val = 10)) ∧
    ((exibir_ram (inicializar_sistema s0) frame_acessado).2.map LinhaRAM.rotulo)[0]?
      = some "[ TABELA PAGINAS ]" ∧
    ((exibir_ram (inicializar_sistema s0) frame_acessado).2.map LinhaRAM.rotulo)[6]?
      = some "[     LIVRE      ]" ∧
    ((exibir_ram (inicializar_sistema s0) frame_acessado).2.map LinhaRAM.rotulo)[7]?
      = some "[     LIVRE      ]" ∧
    ((exibir_ram (inicializar_sistema s0) frame_acessado).2.map LinhaRAM.rotulo)[10]?
      = some "[     LIVRE      ]" := by
  rw [exibir_ram_rotulos, init_dono_frame]
  refine ⟨?_, ?_, ?_, ?_, ?_, ?_, ?_, ?_, ?_⟩ <;> decide

/-- C9: a translation returns the global state it was given (`RAM`, `processos`
and `dono_frame` unchanged), as does `exibir_ram`; translating the same process
and logical address again from the returned state gives the same result. -/
theorem C9_traducao_preserva_estado (s : Sistema) (p : TCB) (a : Int) (f : Int) :
    (mmu_traduzir_endereco s p a).1 = s ∧
    (mmu_traduzir_endereco s p a).1.RAM = s.RAM ∧
    (mmu_traduzir_endereco s p a).1.processos = s.processos ∧
    (mmu_traduzir_endereco s p a).1.dono_frame = s.dono_frame ∧
    (exibir_ram s f).1 = s ∧
    (mmu_traduzir_endereco (mmu_traduzir_endereco s p a).1 p a).2
      = (mmu_traduzir_endereco s p a).2 := by
  have h := mmu_estado s p a
  refine ⟨h, ?_, ?_, ?_, rfl, ?_⟩ <;> rw [h]

/-- C10: case 1 of the menu of `main`, run on the initialised system.  For an id
in `{1, 2, 3}` the active pid becomes the id and the active descriptor becomes
`processos[id - 1]`, whose pid is the id; for any other id the iteration
reports an invalid process and leaves the active pid and descriptor as they
were.  The globals are unchanged in both cases. -/
theorem C10_selecao_de_processo (s0 : Sistema) (sh : Shell) (id : Int) :
    ((1 ≤ id ∧ id ≤ 3) →
      (main_passo (inicializar_sistema s0) sh 1 id).2.1.pid_ativo = id ∧
      (main_passo (inicializar_sistema s0) sh 1 id).2.1.processo_ativo
        = (inicializar_sistema s0).processos (id - 1).toNat ∧
      (main_passo (inicializar_sistema s0) sh 1 id).2.1.processo_ativo.pid = id ∧
      (main_passo (inicializar_sistema s0) sh 1 id).2.2 = Saida.processo_atualizado id ∧
      (main_passo (inicializar_sistema s0) sh 1 id).1 = inicializar_sistema s0) ∧
    ((id < 1 ∨ 3 < id) →
      main_passo (inicializar_sistema s0) sh 1 id
        = (inicializar_sistema s0, sh, Saida.processo_invalido sh.pid_ativo)) := by
  constructor
  · rintro ⟨h1, h3⟩
    have hg : ¬ (id < 1 ∨ id > 3) := by omega
    unfold main_passo
    rw [if_pos rfl, if_neg hg]
    refine ⟨rfl, rfl, ?_, rfl, rfl⟩
    show ((inicializar_sistema s0).processos (id - 1).toNat).pid = id
    interval_cases id
    · exact rfl
    · exact rfl
    · exact rfl
  · intro h
    have hg : id < 1 ∨ id > 3 := by omega
    unfold main_passo
    rw [if_pos rfl, if_pos hg]

/-- Witness for C10: selecting id 2 from the initial shell, and rejecting 7. -/
theorem C10_selecao_de_processo_witness :
    (main_passo (inicializar_sistema sistema_zero) (main_inicio sistema_zero).2 1 2).2.1.pid_ativo
      = 2 ∧
    (main_passo (inicializar_sistema sistema_zero) (main_inicio sistema_zero).2 1
      2).2.1.processo_ativo = { pid := 2, ptbr_offset := 256 } ∧
    (main_passo (inicializar_sistema sistema_zero) (main_inicio sistema_zero).2 1 7).2.1.pid_ativo
      = 1 ∧
    (main_passo (inicializar_sistema sistema_zero) (main_inicio sistema_zero).2 1
      7).2.1.processo_ativo = { pid := 1, ptbr_offset := 0 } :=
  have h := C10_selecao_de_processo sistema_zero (main_inicio sistema_zero).2
  ⟨((h 2).1 (by decide)).1, by decide,
    by rw [(h 7).2 (by decide)]; decide, by rw [(h 7).2 (by decide)]; decide⟩

/-- C11: after `inicializar_sistema`, for every configured process and every
logical address in `[0, 4096)` the translation is produced with its entry
address in frame 0 (`[0, 1024)`), a frame number below 16 that is not frame 0,
and a physical address inside physical memory, in `[1024, 16384)`. -/
theorem C11_faltas_inalcancaveis (s0 : Sistema) (i : Nat) (a : Int)
    (hi : i < PROCESSOS_COUNT) (ha0 : 0 ≤ a) (ha : a < 4096) :
    ∃ t, (mmu_traduzir_endereco (inicializar_sistema s0)
        ((inicializar_sistema s0).processos i) a).2 = some t ∧
      0 ≤ t.endereco_entrada_tabela ∧ t.endereco_entrada_tabela < (TAMANHO_PAGINA : Int) ∧
      0 ≤ t.num_frame ∧ t.num_frame < (QUADROS_RAM : Int) ∧ t.num_frame ≠ 0 ∧
      (TAMANHO_PAGINA : Int) ≤ t.endereco_fisico ∧ t.endereco_fisico < (TAMANHO_RAM : Int) := by
  have hRAM : ((TAMANHO_RAM : Nat) : Int) = 16384 := by decide
  have hPAG : ((TAMANHO_PAGINA : Nat) : Int) = 1024 := by decide
  have hQ : ((QUADROS_RAM : Nat) : Int) = 16 := by decide
  have hi3 : i < 3 := hi
  have hi2 : (i : Int) < 3 := by exact_mod_cast hi3
  have hq0 : 0 ≤ a / 1024 := by omega
  have hq : a / 1024 < 4 := by omega
  obtain ⟨hf1, hf15⟩ := init_frame_intervalo s0 i (a / 1024) hi3 hq0 hq
  rw [init_processo s0 i hi3, hRAM, hPAG, hQ]
  rw [mmu_definido _ _ a (by show 0 ≤ 256 * (i : Int) + a / 1024; omega)
    (by show 256 * (i : Int) + a / 1024 < 16384; omega)]
  refine ⟨_, rfl, ?_, ?_, ?_, ?_, ?_, ?_, ?_⟩
  · show 0 ≤ 256 * (i : Int) + a / 1024
    omega
  · show 256 * (i : Int) + a / 1024 < 1024
    omega
  · show 0 ≤ (((inicializar_sistema s0).RAM (256 * (i : Int) + a / 1024).toNat : Nat) : Int)
    omega
  · show (((inicializar_sistema s0).RAM (256 * (i : Int) + a / 1024).toNat : Nat) : Int) < 16
    omega
  · show (((inicializar_sistema s0).RAM (256 * (i : Int) + a / 1024).toNat : Nat) : Int) ≠ 0
    omega
  · show 1024 ≤ (((inicializar_sistema s0).RAM (256 * (i : Int) + a / 1024).toNat : Nat) : Int)
      * 1024 + a % 1024
    omega
  · show (((inicializar_sistema s0).RAM (256 * (i : Int) + a / 1024).toNat : Nat) : Int)
      * 1024 + a % 1024 < 16384
    omega

/-- Witness for C11: P2 (index 1) at logical address 2098, whose translation is
page 2, entry address 258, frame 12 and physical address 12338. -/
theorem C11_faltas_inalcancaveis_witness :
    (mmu_traduzir_endereco (inicializar_sistema sistema_zero)
        ((inicializar_sistema sistema_zero).processos 1) 2098).2.map Traducao.valores
      = some (2, 50, 258, 12, 12338) ∧
    ∃ t, (mmu_traduzir_endereco (inicializar_sistema sistema_zero)
        ((inicializar_sistema sistema_zero).processos 1) 2098).2 = some t ∧
      0 ≤ t.endereco_entrada_tabela ∧ t.endereco_entrada_tabela < (TAMANHO_PAGINA : Int) ∧
      0 ≤ t.num_frame ∧ t.num_frame < (QUADROS_RAM : Int) ∧ t.num_frame ≠ 0 ∧
      (TAMANHO_PAGINA : Int) ≤ t.endereco_fisico ∧ t.endereco_fisico < (TAMANHO_RAM : Int) :=
  ⟨by decide,
    C11_faltas_inalcancaveis sistema_zero 1 2098 (by decide) (by decide) (by decide)⟩

/-- C12: after `inicializar_sistema`, for every configured process and page
`n` in `[0, 4)` the owner tag of the frame stored in the page-table entry
`RAM[ptbr_offset + n]` is the pid of the process; conversely every frame of
`0 .. 15` whose tag is the pid of a configured process is the value of one of
the four page-table entries of that process. -/
theorem C12_donos_espelham_tabelas (s0 : Sistema) (i n : Nat)
    (hi : i < PROCESSOS_COUNT) (hn : n < PAGINAS_PROCESSO) :
    (inicializar_sistema s0).dono_frame
        ((inicializar_sistema s0).RAM
          (((inicializar_sistema s0).processos i).ptbr_offset + (n : Int)).toNat)
      = ((inicializar_sistema s0).processos i).pid ∧
    (∀ f : Nat, f < QUADROS_RAM →
      (inicializar_sistema s0).dono_frame f = ((inicializar_sistema s0).processos i).pid →
      ∃ m : Nat, m < PAGINAS_PROCESSO ∧
        (inicializar_sistema s0).RAM
          (((inicializar_sistema s0).processos i).ptbr_offset + (m : Int)).toNat = f) := by
  have hi3 : i < 3 := hi
  have hn4 : n < 4 := hn
  rw [init_processo s0 i hi3, init_RAM, init_dono_frame]
  constructor
  · exact init_dono_da_entrada i n hi3 hn4
  · intro f hf h
    exact init_entrada_do_dono f i hf hi3 h

/-- Witness for C12: P3 (index 2), page 2, whose entry holds frame 14. -/
theorem C12_donos_espelham_tabelas_witness :
    (inicializar_sistema sistema_zero).RAM 514 = 14 ∧
    (inicializar_sistema sistema_zero).dono_frame 14 = 3 ∧
    (inicializar_sistema sistema_zero).dono_frame
        ((inicializar_sistema sistema_zero).RAM
          (((inicializar_sistema sistema_zero).processos 2).ptbr_offset + ((2 : Nat) : Int)).toNat)
      = ((inicializar_sistema sistema_zero).processos 2).pid ∧
    ∃ m : Nat, m < PAGINAS_PROCESSO ∧
      (inicializar_sistema sistema_zero).RAM
        (((inicializar_sistema sistema_zero).processos 2).ptbr_offset + (m : Int)).toNat = 15 :=
  have h := C12_donos_espelham_tabelas sistema_zero 2 2 (by decide) (by decide)
  ⟨by decide, by decide, h.1, h.2 15 (by decide) (by decide)⟩

/-- C13: for every logical address `a` in `[0, 4096)` the page number `a >> 10`
lies in `[0, 4)` and the offset `a & 0x03FF` lies in `[0, 1024)`; the same holds
for the page number and offset of every translation of `a`, so a page number
of 4 or more cannot occur. -/
theorem C13_pagina_e_offset_no_intervalo (a : Int) (ha0 : 0 ≤ a) (ha : a < 4096) :
    0 ≤ c_shr a 10 ∧ c_shr a 10 < (PAGINAS_PROCESSO : Int) ∧
    0 ≤ c_and a MASCARA_OFFSET ∧ c_and a MASCARA_OFFSET < (TAMANHO_PAGINA : Int) ∧
    (∀ (s : Sistema) (p : TCB) (t : Traducao), (mmu_traduzir_endereco s p a).2 = some t →
      0 ≤ t.num_pagina ∧ t.num_pagina < (PAGINAS_PROCESSO : Int) ∧
      0 ≤ t.offset ∧ t.offset < (TAMANHO_PAGINA : Int)) := by
  have hP : ((PAGINAS_PROCESSO : Nat) : Int) = 4 := by decide
  have hT : ((TAMANHO_PAGINA : Nat) : Int) = 1024 := by decide
  rw [c_shr_dez, c_and_mascara, hP, hT]
  refine ⟨by omega, by omega, by omega, by omega, ?_⟩
  intro s p t h
  obtain ⟨h1, h2⟩ := mmu_decomposicao s p a t h
  rw [h1, h2]
  refine ⟨by omega, by omega, by omega, by omega⟩

/-- Witness for C13: the last valid logical address, 4095 (page 3, offset 1023). -/
theorem C13_pagina_e_offset_no_intervalo_witness :
    c_shr 4095 10 = 3 ∧ c_and 4095 MASCARA_OFFSET = 1023 ∧
    c_shr 4095 10 < (PAGINAS_PROCESSO : Int) ∧
    c_and 4095 MASCARA_OFFSET < (TAMANHO_PAGINA : Int) :=
  have h := C13_pagina_e_offset_no_intervalo 4095 (by decide) (by decide)
  ⟨by decide, by decide, h.2.1, h.2.2.2.1⟩

/-- C14: after `inicializar_sistema`, `RAM` holds 5, 8, 9, 11 at `0x0000..0x0003`,
1, 2, 12, 13 at `0x0100..0x0103`, 3, 4, 14, 15 at `0x0200..0x0203` and 0 at
every other index; in particular every byte outside frame 0 is 0. -/
theorem C14_conteudo_da_RAM (s0 : Sistema) :
    (inicializar_sistema s0).RAM 0x0000 = 5 ∧ (inicializar_sistema s0).RAM 0x0001 = 8 ∧
    (inicializar_sistema s0).RAM 0x0002 = 9 ∧ (inicializar_sistema s0).RAM 0x0003 = 11 ∧
    (inicializar_sistema s0).RAM 0x0100 = 1 ∧ (inicializar_sistema s0).RAM 0x0101 = 2 ∧
    (inicializar_sistema s0).RAM 0x0102 = 12 ∧ (inicializar_sistema s0).RAM 0x0103 = 13 ∧
    (inicializar_sistema s0).RAM 0x0200 = 3 ∧ (inicializar_sistema s0).RAM 0x0201 = 4 ∧
    (inicializar_sistema s0).RAM 0x0202 = 14 ∧ (inicializar_sistema s0).RAM 0x0203 = 15 ∧
    (∀ k : Nat, ¬ (k < 4 ∨ (0x0100 ≤ k ∧ k < 0x0104) ∨ (0x0200 ≤ k ∧ k < 0x0204)) →
      (inicializar_sistema s0).RAM k = 0) ∧
    (∀ k : Nat, TAMANHO_PAGINA ≤ k → (inicializar_sistema s0).RAM k = 0) := by
  have hT : TAMANHO_PAGINA = 1024 := rfl
  refine ⟨rfl, rfl, rfl, rfl, rfl, rfl, rfl, rfl, rfl, rfl, rfl, rfl, ?_, ?_⟩
  · intro k hk
    rw [init_RAM_bytes]
    iterate 12 rw [if_neg (by omega)]
  · intro k hk
    rw [hT] at hk
    rw [init_RAM_bytes]
    iterate 12 rw [if_neg (by omega)]

/-- Witness for C14: the bytes next to P1's table, at the end of frame 0 and at
the last index of `RAM` are 0. -/
theorem C14_conteudo_da_RAM_witness :
    (inicializar_sistema sistema_zero).RAM 4 = 0 ∧
    (inicializar_sistema sistema_zero).RAM 1023 = 0 ∧
    (inicializar_sistema sistema_zero).RAM 16383 = 0 :=
  have h := C14_conteudo_da_RAM sistema_zero
  ⟨h.2.2.2.2.2.2.2.2.2.2.2.2.1 4 (by decide),
   h.2.2.2.2.2.2.2.2.2.2.2.2.1 1023 (by decide),
   h.2.2.2.2.2.2.2.2.2.2.2.2.2 16383 (by decide)⟩

/-- C15: for any `RAM` contents, descriptor and logical address `a >= 0`, every
physical address computed by the translation splits back into its parts: its
quotient by 1024 is the frame read from the page-table entry and its remainder
is the offset `a & 0x03FF` of the logical address (with the truncating `/` and
`%` of C as well as with floor division).  A translation is computed whenever
the entry index lies inside `RAM`. -/
theorem C15_endereco_fisico_recompoe (s : Sistema) (p : TCB) (a : Int) (_ha0 : 0 ≤ a) :
    (∀ t : Traducao, (mmu_traduzir_endereco s p a).2 = some t →
      t.num_frame = (s.RAM (p.ptbr_offset + c_shr a 10).toNat : Int) ∧
      t.offset = c_and a MASCARA_OFFSET ∧
      t.endereco_fisico / (TAMANHO_PAGINA : Int) = t.num_frame ∧
      t.endereco_fisico % (TAMANHO_PAGINA : Int) = c_and a MASCARA_OFFSET ∧
      Int.tdiv t.endereco_fisico (TAMANHO_PAGINA : Int) = t.num_frame ∧
      Int.tmod t.endereco_fisico (TAMANHO_PAGINA : Int) = c_and a MASCARA_OFFSET) ∧
    (0 ≤ p.ptbr_offset + c_shr a 10 → p.ptbr_offset + c_shr a 10 < (TAMANHO_RAM : Int) →
      ∃ t, (mmu_traduzir_endereco s p a).2 = some t) := by
  have hRAM : ((TAMANHO_RAM : Nat) : Int) = 16384 := by decide
  have hPAG : ((TAMANHO_PAGINA : Nat) : Int) = 1024 := by decide
  rw [c_shr_dez, c_and_mascara, hRAM, hPAG]
  constructor
  · intro t ht
    obtain ⟨_, _, ho, hf, he⟩ := mmu_resultado s p a t ht
    have hn : (0 : Int) ≤ (s.RAM (p.ptbr_offset + a / 1024).toNat : Int) := Int.ofNat_nonneg _
    have hpos : 0 ≤ t.endereco_fisico := by rw [he]; omega
    rw [Int.tdiv_eq_ediv hpos (by decide), Int.tmod_eq_emod hpos (by decide), hf, ho, he]
    refine ⟨rfl, rfl, ?_, ?_, ?_, ?_⟩ <;> omega
  · intro h0 h1
    rw [mmu_definido s p a h0 h1]
    exact ⟨_, rfl⟩

/-- Witness for C15: the state whose first entry byte is 200, P1, address 100:
physical address 204900 splits into frame 200 and offset 100. -/
theorem C15_endereco_fisico_recompoe_witness :
    (mmu_traduzir_endereco sistema_entrada_200 (sistema_entrada_200.processos 0) 100).2.map
      Traducao.valores = some (0, 100, 0, 200, 204900) ∧
    ∃ t, (mmu_traduzir_endereco sistema_entrada_200 (sistema_entrada_200.processos 0) 100).2
        = some t ∧
      t.endereco_fisico / (TAMANHO_PAGINA : Int) = t.num_frame ∧
      t.endereco_fisico % (TAMANHO_PAGINA : Int) = c_and 100 MASCARA_OFFSET :=
  have h := C15_endereco_fisico_recompoe sistema_entrada_200 (sistema_entrada_200.processos 0)
    100 (by decide)
  ⟨by decide, by
    obtain ⟨t, ht⟩ := h.2 (by decide) (by decide)
    exact ⟨t, ht, (h.1 t ht).2.2.1, (h.1 t ht).2.2.2.1⟩⟩

/-- C16: in the state `main` has reached after any sequence of inputs, menu
case 2 with a page choice in `{0, 1, 2, 3}` translates `enderecos_logicos[choice]`
under the active descriptor: that address lies in `[0, 4096)`, its page number
is the choice and its offset is 100, 200, 50 or 300, the descriptor is one of
the three configured ones, and the translation is produced.  A choice outside
`{0, 1, 2, 3}` performs no translation, and neither does any other menu case.
Every translation in the output of `main` is such a translation. -/
theorem C16_traducoes_do_menu (s0 : Sistema) (entradas : List (Int × Int)) (escolha : Int) :
    ((0 ≤ escolha ∧ escolha ≤ 3) →
      (main_passo (main s0 entradas).1 (main s0 entradas).2.1 2 escolha).2.2
        = Saida.traducao (mmu_traduzir_endereco (inicializar_sistema s0)
            (main s0 entradas).2.1.processo_ativo
            ((main s0 entradas).2.1.enderecos_logicos escolha.toNat)).2 ∧
      0 ≤ (main s0 entradas).2.1.enderecos_logicos escolha.toNat ∧
      (main s0 entradas).2.1.enderecos_logicos escolha.toNat < 4096 ∧
      c_shr ((main s0 entradas).2.1.enderecos_logicos escolha.toNat) 10 = escolha ∧
      c_and ((main s0 entradas).2.1.enderecos_logicos escolha.toNat) MASCARA_OFFSET
        = (if escolha = 0 then 100 else if escolha = 1 then 200
            else if escolha = 2 then 50 else 300) ∧
      (∃ k : Nat, k < PROCESSOS_COUNT ∧
        (main s0 entradas).2.1.processo_ativo = (inicializar_sistema s0).processos k) ∧
      (∃ t, (mmu_traduzir_endereco (inicializar_sistema s0)
            (main s0 entradas).2.1.processo_ativo
            ((main s0 entradas).2.1.enderecos_logicos escolha.toNat)).2 = some t)) ∧
    ((escolha < 0 ∨ 3 < escolha) →
      main_passo (main s0 entradas).1 (main s0 entradas).2.1 2 escolha
        = ((main s0 entradas).1, (main s0 entradas).2.1, Saida.variavel_invalida)) ∧
    (∀ (m e : Int) (r : Option Traducao), m ≠ 2 →
      (main_passo (main s0 entradas).1 (main s0 entradas).2.1 m e).2.2 ≠ Saida.traducao r) ∧
    (∀ r : Option Traducao, Saida.traducao r ∈ (main s0 entradas).2.2 →
      ∃ (k : Nat) (e : Int), k < PROCESSOS_COUNT ∧ 0 ≤ e ∧ e ≤ 3 ∧
        r = (mmu_traduzir_endereco (inicializar_sistema s0)
              ((inicializar_sistema s0).processos k)
              ((main_inicio s0).2.enderecos_logicos e.toNat)).2) := by
  have hinv := main_invariante_final s0 entradas
  obtain ⟨hs, he, k, hk, hp, hpid⟩ := hinv
  refine ⟨?_, ?_, ?_, ?_⟩
  · rintro ⟨h0, h3⟩
    have hg : ¬ (escolha < 0 ∨ escolha > 3) := by omega
    have hend := main_enderecos s0 escolha h0 h3
    have hoff : (0 : Int) ≤ (if escolha = 0 then 100 else if escolha = 1 then 200
        else if escolha = 2 then 50 else 300) ∧
        (if escolha = 0 then 100 else if escolha = 1 then 200
        else if escolha = 2 then 50 else 300) < (1024 : Int) := by
      split_ifs <;> decide
    rw [main_passo_acessar_valido _ _ _ hg, he, hend, c_shr_dez, c_and_mascara, hp, hs]
    refine ⟨rfl, by omega, by omega, by omega, by omega, ⟨k, hk, rfl⟩, ?_⟩
    rw [init_processo s0 k hk]
    have hk2 : (k : Int) < 3 := by exact_mod_cast hk
    rw [mmu_definido _ _ _ (by show 0 ≤ 256 * (k : Int) + _ / 1024; omega)
      (by show 256 * (k : Int) + _ / 1024 < 16384; omega)]
    exact ⟨_, rfl⟩
  · intro h
    exact main_passo_acessar_invalido _ _ _ (by omega)
  · intro m e r hm hr
    exact hm (main_passo_traducao s0 _ _ m e ⟨hs, he, k, hk, hp, hpid⟩ r hr).1
  · intro r hr
    exact main_laco_saidas s0 entradas _ _ (main_inicio_invariante s0) r hr

/-- Witness for C16: after switching to P2 and viewing the memory, page choice 1
translates logical address 1224 under P2 to physical address 2248; page choice
4 is rejected. -/
theorem C16_traducoes_do_menu_witness :
    (main sistema_zero [(1, 2), (3, 0)]).2.1.processo_ativo = { pid := 2, ptbr_offset := 256 } ∧
    (main sistema_zero [(1, 2), (3, 0)]).2.1.enderecos_logicos 1 = 1224 ∧
    (mmu_traduzir_endereco (inicializar_sistema sistema_zero)
        (main sistema_zero [(1, 2), (3, 0)]).2.1.processo_ativo 1224).2.map Traducao.valores
      = some (1, 200, 257, 2, 2248) ∧
    c_shr ((main sistema_zero [(1, 2), (3, 0)]).2.1.enderecos_logicos (1 : Int).toNat) 10 = 1 ∧
    (main_passo (main sistema_zero [(1, 2), (3, 0)]).1 (main sistema_zero [(1, 2), (3, 0)]).2.1
        2 4).2.2 = Saida.variavel_invalida :=
  have h := C16_traducoes_do_menu sistema_zero [(1, 2), (3, 0)]
  ⟨by decide, by decide, by decide, ((h 1).1 (by decide)).2.2.2.1,
    by rw [(h 4).2.1 (by decide)]⟩

end Simulador
